/-
Verification of the Bugs-Bunny bug-fixer agent pipeline (bug_fixer_agent/).

Shallow embedding of the retry-governed external-call orchestration and
report-assembly pipeline: agent.py (BugFixerAgent), run.py (BugFixerRunner),
config.py (Config), bug_definitions.py (BugDefinitions).

The external generative API is modelled as a function from the (0-based)
attempt index to that call's outcome: either a returned response (whose text
may be missing or empty) or a raised exception.  Python dictionaries are
modelled as insertion-ordered association lists over a small value type, so
that key-presence behaviour (`d["k"]` raising KeyError versus `d.get`) is
captured exactly.  Code that can raise is modelled in `Except String`.
Wall-clock sleeps, logging and file I/O have no effect on the values
computed and are omitted.
-/
import Mathlib

set_option maxRecDepth 10000

/-! ## Character / string helpers

Python `str.strip()` and `re` operations are modelled on `List Char`. -/

/-- Python `str.strip()`: drop whitespace from both ends (on char lists). -/
def pyStrip (cs : List Char) : List Char :=
  ((cs.dropWhile Char.isWhitespace).reverse.dropWhile Char.isWhitespace).reverse

/-- Python `str.strip()` on `String`. -/
def pyStripStr (s : String) : String :=
  String.mk (pyStrip s.data)

/-- Split a char list into lines at newline characters (as Python's
`re.MULTILINE` anchors `^` at the string start and after each newline). -/
def splitLines : List Char → List (List Char)
  | [] => [[]]
  | c :: cs =>
    match splitLines cs with
    | l :: ls => if c = '\n' then [] :: l :: ls else (c :: l) :: ls
    | [] => [[c]]

/-- The backquote character (written via its code point). -/
def bq : Char := Char.ofNat 96

/-- Count non-overlapping occurrences of a triple-backquote fence, as
Python `str.count` does for the fence marker. -/
def countFences (l : List Char) : Nat :=
  match l with
  | a :: b :: c :: rest =>
    if a = bq ∧ b = bq ∧ c = bq then countFences rest + 1
    else countFences (b :: c :: rest)
  | _ => 0

/-- Whether `needle` occurs as a contiguous run of `hay`
(Python `needle in hay` on strings). -/
def hasSub (needle : List Char) : List Char → Bool
  | [] => needle.isEmpty
  | c :: rest => needle.isPrefixOf (c :: rest) || hasSub needle rest

/-- Join a list of strings with a separator (Python `sep.join(xs)`). -/
def joinSep (sep : String) : List String → String
  | [] => ""
  | [x] => x
  | x :: y :: ys => x ++ sep ++ joinSep sep (y :: ys)

/-! ## Python-dict model -/

/-- Python values stored in the dictionaries this pipeline builds. -/
inductive Val where
  | vstr (s : String)
  | vbool (b : Bool)
  | vnat (n : Nat)
  | vlist (l : List Val)
  | vdict (d : List (String × Val))

/-- Insertion-ordered association list standing for a Python dict. -/
abbrev Dict := List (String × Val)

/-- Key lookup (`k in d` / `d[k]` when present). -/
def dget (d : Dict) (k : String) : Option Val :=
  (d.find? (fun p => p.1 == k)).map Prod.snd

/-- Python dict assignment `d[k] = v`: update in place if the key exists
(keeping its position), otherwise append (insertion order). -/
def dset (d : Dict) (k : String) (v : Val) : Dict :=
  if (d.find? (fun p => p.1 == k)).isSome then
    d.map (fun p => if p.1 == k then (k, v) else p)
  else d ++ [(k, v)]

/-- Python truthiness of a stored value (`if suggestion_response["success"]:`). -/
def truthyVal : Val → Bool
  | .vstr s => !(s == "")
  | .vbool b => b
  | .vnat n => !(n == 0)
  | .vlist l => !l.isEmpty
  | .vdict d => !d.isEmpty

/-- `d.get(k, default)` for string-valued entries. -/
def dgetStrD (d : Dict) (k : String) (dflt : String) : String :=
  match dget d k with
  | some (.vstr s) => s
  | some _ => dflt
  | none => dflt

/-- `d.get(k, {})` for dict-valued entries. -/
def dgetDictD (d : Dict) (k : String) : Dict :=
  match dget d k with
  | some (.vdict d') => d'
  | _ => []

/-! ## Data model: bug_definitions.py and config.py -/

/-- One planted-bug record (bug_definitions.py entries). -/
structure Bug where
  name : String
  description : String
  files : List String
  root_cause : String
  fix_summary : String

/-- `BugDefinitions.get_bug_by_name`: first record with a matching name. -/
def get_bug_by_name (bugs : List Bug) (bug_name : String) : Option Bug :=
  bugs.find? (fun b => b.name == bug_name)

/-- A bug record as the Python dict the code passes around. -/
def bugToVal (b : Bug) : Val :=
  .vdict [("name", .vstr b.name), ("description", .vstr b.description),
          ("files", .vlist (b.files.map .vstr)),
          ("root_cause", .vstr b.root_cause),
          ("fix_summary", .vstr b.fix_summary)]

/-- config.py `Config`.  `temperature` / `top_p` are only ever rendered into
the report, so they are carried as their literal decimal text. -/
structure Config where
  model_name : String
  max_retries : Nat
  temperature : String
  max_output_tokens : Nat
  top_p : String
  top_k : Nat

/-- The values config.py assigns (config.py:14-23). -/
def defaultConfig : Config :=
  { model_name := "models/gemini-2.5-flash", max_retries := 5,
    temperature := "0.1", max_output_tokens := 16384,
    top_p := "0.8", top_k := 40 }

/-! ## External API model -/

/-- One external generation call's outcome: a returned response whose text
may be absent/empty (`not response or not response.text`), or a raised
exception caught by the agent's `except` clauses. -/
inductive ApiOutcome where
  | resp (text : Option String)
  | exn (msg : String)

/-- Python falsiness of `response.text` (`None` or the empty string). -/
def falsyText : Option String → Bool
  | none => true
  | some s => s == ""

/-- The text of a response, `""` when absent (only read after the falsiness
check has passed). -/
def textOf : Option String → String
  | none => ""
  | some s => s

/-! ## agent.py: format validation -/

/-- Whether some line of the text starts with `File: `
(`re.search(r'^File: .*', code_content, re.MULTILINE)`, agent.py:142). -/
def hasFileLine (code : String) : Bool :=
  (splitLines code.data).any (fun l => "File: ".data.isPrefixOf l)

/-- agent.py:133-151 `_validate_code_snippet_format`.  The fence-count check
(agent.py:146-149) only emits a warning and never changes the result. -/
def validate_code_snippet_format (code : String) : Bool :=
  if pyStrip code.data = [] then false
  else if hasFileLine code = false then false
  else true

/-! ## agent.py: analyze_bug and generate_fix -/

/-- agent.py:28-53 `analyze_bug`.  The per-file static analysis reads the
file system; its results dict (in which per-path failures are absorbed as
`{"error": ...}` entries, agent.py:45-47) is supplied as the opaque
parameter `staticA`. -/
def analyze_bug (bugs : List Bug) (bug_name : String) (staticA : Val)
    (codebase_content : String) : Dict :=
  match get_bug_by_name bugs bug_name with
  | none => [("error", .vstr ("Bug '" ++ bug_name ++ "' not found in definitions"))]
  | some b =>
    [("bug_info", bugToVal b), ("static_analysis", staticA),
     ("context", .vstr codebase_content)]

/-- agent.py:79-131, the retry loop of `generate_fix`, with an explicit fuel
argument (`fuel = max_retries - attempt` at every call).  Returns the pair
the Python function returns plus the number of API calls performed.  The
fuel-0 case is the loop running off the end (agent.py:131). -/
def fixLoop (mr : Nat) (model_name bug_name : String) (analysis : Val)
    (api : Nat → ApiOutcome) : Nat → Nat → String × Dict × Nat
  | 0, _ => ("", [("error", .vstr "Failed to generate fix after all retries")], 0)
  | fuel + 1, attempt =>
    match api attempt with
    | .exn msg =>
      if attempt < mr - 1 then
        let r := fixLoop mr model_name bug_name analysis api fuel (attempt + 1)
        (r.1, r.2.1, r.2.2 + 1)
      else ("", [("error", .vstr ("API call failed: " ++ msg))], 1)
    | .resp t =>
      if falsyText t then
        if attempt == mr - 1 then
          ("", [("error", .vstr "No response from API after max retries")], 1)
        else
          let r := fixLoop mr model_name bug_name analysis api fuel (attempt + 1)
          (r.1, r.2.1, r.2.2 + 1)
      else
        let snippet := pyStripStr (textOf t)
        if validate_code_snippet_format snippet = false then
          if attempt == mr - 1 then
            ("", [("error", .vstr "No valid code snippet generated after max retries")], 1)
          else
            let r := fixLoop mr model_name bug_name analysis api fuel (attempt + 1)
            (r.1, r.2.1, r.2.2 + 1)
        else
          (snippet,
           [("bug_name", .vstr bug_name), ("analysis", analysis),
            ("attempts", .vnat (attempt + 1)), ("model_used", .vstr model_name)],
           1)

/-- agent.py:55-131 `generate_fix`.  The prompt is built by the external
`Prompts.generate_enhanced_prompt`; its result (or the exception it raised,
agent.py:68-72) is the parameter `promptRes`.  Returns the Python pair
together with the number of external generation calls performed. -/
def generate_fix (mr : Nat) (model_name : String) (bugs : List Bug)
    (bug_name : String) (staticA : Val) (codebase_content : String)
    (promptRes : Except String String) (api : Nat → ApiOutcome) :
    String × Dict × Nat :=
  let analysis := analyze_bug bugs bug_name staticA codebase_content
  match dget analysis "error" with
  | some e => ("", [("error", e)], 0)
  | none =>
    match promptRes with
    | .error e => ("", [("error", .vstr ("Error generating prompt: " ++ e))], 0)
    | .ok prompt =>
      if hasSub "Error:".data prompt.data || pyStripStr prompt == "" then
        ("", [("error", .vstr "Invalid prompt generated")], 0)
      else
        fixLoop mr model_name bug_name (.vdict analysis) api mr 0

/-! ## agent.py: get_fix_summary and the Failure Analyst -/

/-- Lines of the snippet starting with `File: `, with the marker removed
(`re.findall(r'^File: (.*)', ..., re.MULTILINE)`, agent.py:167), deduplicated.
Python builds `list(set(...))`, whose order is unspecified; keeping first
occurrences is one admissible order and nothing downstream depends on it. -/
def detectFiles (code : String) : List String :=
  (((splitLines code.data).filterMap
      (fun l => if "File: ".data.isPrefixOf l then some (String.mk (l.drop 6)) else none))).dedup

/-- agent.py:154-178 `get_fix_summary`. -/
def get_fix_summary (bug_name corrected_code_snippet : String)
    (analysis_metadata : Dict) : Dict :=
  let original_analysis_dict := dgetDictD analysis_metadata "analysis"
  let bug_info := dgetDictD original_analysis_dict "bug_info"
  let files_affected :=
    match dget bug_info "files" with
    | some (.vlist l) => l
    | _ => []
  let files_affected :=
    if files_affected.isEmpty then (detectFiles corrected_code_snippet).map Val.vstr
    else files_affected
  [("bug_name", .vstr bug_name),
   ("description", .vstr (dgetStrD bug_info "description" "")),
   ("root_cause", .vstr (dgetStrD bug_info "root_cause" "")),
   ("fix_summary", .vstr (dgetStrD bug_info "fix_summary" "Solution provided as code snippet.")),
   ("files_affected", .vlist files_affected),
   ("corrected_code_snippet", .vstr corrected_code_snippet),
   ("analysis_metadata", .vdict analysis_metadata)]

/-- agent.py:198-220, the retry loop of
`generate_failure_analysis_and_suggestions`, fuel-indexed like `fixLoop`.
Any non-falsy response text is accepted (agent.py:211); empty responses and
exceptions sleep and move to the next attempt with no last-attempt special
case.  The fuel-0 case is the loop running off the end: agent.py:223 returns
a dict carrying only `"analysis"` — note the missing `"success"` key. -/
def faLoop (api : Nat → ApiOutcome) : Nat → Nat → Dict
  | 0, _ => [("analysis", .vstr "Failed to generate intelligent suggestions due to API error.")]
  | fuel + 1, attempt =>
    match api attempt with
    | .resp t =>
      if falsyText t then faLoop api fuel (attempt + 1)
      else [("analysis", .vstr (pyStripStr (textOf t))), ("success", .vbool true)]
    | .exn _ => faLoop api fuel (attempt + 1)

/-- agent.py:180-223 `generate_failure_analysis_and_suggestions` (the prompt
it renders feeds only the external call, which is the `api` parameter). -/
def generate_failure_analysis_and_suggestions (mr : Nat)
    (api : Nat → ApiOutcome) : Dict :=
  faLoop api mr 0

/-! ## run.py: process_bug -/

/-- The per-bug external environment of one `process_bug` call: the prompt
builder's result, the opaque static-analysis results, and the two external
API call sequences (Fix Generator, Failure Analyst). -/
structure BugEnv where
  promptRes : Except String String
  staticA : Val
  fixApi : Nat → ApiOutcome
  faApi : Nat → ApiOutcome

/-- run.py:94-113: the `result_payload` as it stands at the end of the
`try` block — initial payload (run.py:94-100), `generate_fix`, and the
classification on emptiness of the returned code (run.py:107-113). -/
def classifyFix (bug_name code : String) (meta : Dict) : Dict :=
  let p := [("bug_name", Val.vstr bug_name), ("status", Val.vstr "initial"),
            ("error", Val.vstr ""), ("generated_code_solution", Val.vstr ""),
            ("ai_suggestions", Val.vstr "")]
  let p := dset p "generated_code_solution" (.vstr code)
  if code == "" then
    dset (dset p "status" (.vstr "failed_to_generate_solution"))
      "error" ((dget meta "error").getD (.vstr "No code solution generated."))
  else
    dset (dset p "status" (.vstr "solution_generated"))
      "fix_summary" (.vdict (get_fix_summary bug_name code meta))

/-- Whether a payload's status is `solution_generated`
(run.py:121 `result_payload["status"] != "solution_generated"`). -/
def statusIsSuccess (p : Dict) : Bool :=
  match dget p "status" with
  | some (.vstr s) => s == "solution_generated"
  | _ => false

/-- run.py:87-133 `process_bug`.  In this pure model nothing inside the
`try` block raises, so the `except` branch that would set status `"error"`
(run.py:115-118) is not exercised.  The suggestion block (run.py:120-131)
sits OUTSIDE the `try`: the subscripts `suggestion_response["success"]`
(run.py:128) and `suggestion_response["analysis"]` (run.py:129) raise
`KeyError` out of `process_bug` when the key is absent. -/
def process_bug (mr : Nat) (model_name : String) (bugs : List Bug)
    (bug_name : String) (e : BugEnv) (codebase_content : String) :
    Except String Dict :=
  let r := generate_fix mr model_name bugs bug_name e.staticA codebase_content
             e.promptRes e.fixApi
  let p := classifyFix bug_name r.1 r.2.1
  if statusIsSuccess p then .ok p
  else
    let suggestion_response :=
      generate_failure_analysis_and_suggestions mr e.faApi
    match dget suggestion_response "success" with
    | none => .error "KeyError: 'success'"
    | some v =>
      if truthyVal v then
        match dget suggestion_response "analysis" with
        | none => .error "KeyError: 'analysis'"
        | some a => .ok (dset p "ai_suggestions" a)
      else
        .ok (dset p "ai_suggestions"
          (.vstr "Could not generate intelligent suggestions due to API error."))

/-! ## run.py: generate_report -/

/-- A run of `n` copies of one character (Python `"=" * 60`, `"-" * 40`). -/
def charRun (c : Char) (n : Nat) : String := String.mk (List.replicate n c)

/-- run.py:155: `(solution_generated_count/len(bug_results)*100):.1f`.
Python raises `ZeroDivisionError` on an empty result list; otherwise it
formats a float percentage with one decimal.  The percentage is computed
here in tenths of a percent with floor division — the float rounding of the
final digit is abstracted, and nothing proved below depends on the digits. -/
def successRateTenths (succ total : Nat) : Except String Nat :=
  if total = 0 then .error "ZeroDivisionError: division by zero"
  else .ok (succ * 1000 / total)

/-- Render tenths-of-a-percent as a one-decimal string. -/
def fmtTenths (n : Nat) : String := toString (n / 10) ++ "." ++ toString (n % 10)

/-- A value interpolated into an f-string (`str()`): total.  The repr of
list/dict values is abstracted; the controller never stores one in an
interpolated slot. -/
def pyStrOfVal : Val → String
  | .vstr s => s
  | .vbool b => if b then "True" else "False"
  | .vnat n => toString n
  | .vlist _ => "<list>"
  | .vdict _ => "<dict>"

/-- The strings of a value list, `none` when some element is not an actual
string. -/
def allStrs : List Val → Option (List String)
  | [] => some []
  | .vstr s :: rest => (allStrs rest).map (s :: ·)
  | _ => none

/-- `sep.join(items)` over collected values (run.py:213): Python raises
`TypeError` unless every item is an actual string. -/
def pyJoinStrs (sep : String) (items : List Val) : Except String String :=
  match allStrs items with
  | some ss => .ok (joinSep sep ss)
  | none => .error "TypeError: sequence item: expected str instance"

/-- `', '.join(value)` over a stored value (run.py:168): joining a list
checks every element is a string; joining a dict iterates its keys;
joining a string iterates its characters; anything else raises
`TypeError`. -/
def pyJoinVal (sep : String) : Val → Except String String
  | .vlist l => pyJoinStrs sep l
  | .vdict d => .ok (joinSep sep (d.map Prod.fst))
  | .vstr s => .ok (joinSep sep (s.data.map fun c => String.mk [c]))
  | _ => .error "TypeError: can only join an iterable"

/-- Python subscript `d[k]`: `KeyError` when the key is absent. -/
def dsub (d : Dict) (k : String) : Except String Val :=
  match dget d k with
  | some v => .ok v
  | none => .error ("KeyError: '" ++ k ++ "'")

/-- run.py:149 `sum(1 for r in bug_results if r["status"] == ...)`: the
generator subscripts `r["status"]` for every outcome in order, raising
`KeyError` at the first outcome missing the key. -/
def countSolutionGenerated : List Dict → Except String Nat
  | [] => .ok 0
  | r :: rs =>
    match dget r "status" with
    | none => .error "KeyError: 'status'"
    | some _ =>
      match countSolutionGenerated rs with
      | .error e => .error e
      | .ok n => .ok ((if statusIsSuccess r then 1 else 0) + n)

/-- run.py:159-190: one outcome's report section, as the collected line
values.  The subscripted lookups — `result['bug_name']` (run.py:160),
`result['status']` (run.py:161), `result["generated_code_solution"]`
(run.py:170) — raise `KeyError` when absent; `.upper()` (run.py:161)
raises unless the status value is an actual string; the files join
(run.py:168) runs before the run.py:170 subscript.  Raw-appended values
(run.py:170, 177, 185) are checked only by the final join. -/
def renderOutcome (idx : Nat) (result : Dict) : Except String (List Val) :=
  match dsub result "bug_name" with
  | .error e => .error e
  | .ok bugNameV =>
    match dsub result "status" with
    | .error e => .error e
    | .ok statusV =>
      match statusV with
      | .vstr statusS =>
        let base := [Val.vstr ("BUG " ++ toString idx ++ ": " ++ pyStrOfVal bugNameV),
                     Val.vstr ("Status: " ++ statusS.toUpper),
                     Val.vstr (charRun '-' 40)]
        if statusIsSuccess result then
          let fs := dgetDictD result "fix_summary"
          match pyJoinVal ", " ((dget fs "files_affected").getD (.vlist [])) with
          | .error e => .error e
          | .ok filesStr =>
            match dsub result "generated_code_solution" with
            | .error e => .error e
            | .ok codeV =>
              .ok (base ++
                [Val.vstr ("Root Cause: " ++
                   pyStrOfVal ((dget fs "root_cause").getD (.vstr "Not specified"))),
                 Val.vstr ("Proposed Fix Concept: " ++
                   pyStrOfVal ((dget fs "fix_summary").getD (.vstr "Not specified"))),
                 Val.vstr ("Files Affected: " ++ filesStr),
                 Val.vstr "\n--- GENERATED CODE SOLUTION ---",
                 codeV,
                 Val.vstr (charRun '-' 31),
                 Val.vstr ""])
        else
          .ok (base ++
            [Val.vstr ("Error: " ++
               pyStrOfVal ((dget result "error").getD (.vstr "Unknown error")))] ++
            (match dget result "generated_code_solution" with
             | some v =>
               if truthyVal v then
                 [Val.vstr "\n--- ATTEMPTED CODE SOLUTION ---", v,
                  Val.vstr (charRun '-' 31)]
               else [Val.vstr "\nNo code solution was generated in the initial attempt."]
             | none => [Val.vstr "\nNo code solution was generated in the initial attempt."]) ++
            (match dget result "ai_suggestions" with
             | some v =>
               if truthyVal v then
                 [Val.vstr "\n--- AI-GENERATED FAILURE ANALYSIS AND IMPROVED SOLUTION ---",
                  v, Val.vstr (charRun '-' 57)]
               else [Val.vstr "\nNo specific AI-generated suggestions available for this failure."]
             | none => [Val.vstr "\nNo specific AI-generated suggestions available for this failure."]) ++
            [Val.vstr ""])
      | _ => .error "AttributeError: value has no attribute upper"

/-- Number the outcome sections from 1 (`enumerate(bug_results, 1)`),
propagating the first section's exception. -/
def renderOutcomes (idx : Nat) : List Dict → Except String (List Val)
  | [] => .ok []
  | r :: rs =>
    match renderOutcome idx r with
    | .error e => .error e
    | .ok ls =>
      match renderOutcomes (idx + 1) rs with
      | .error e => .error e
      | .ok rest => .ok (ls ++ rest)

/-- run.py:135-213 `generate_report`.  The `Generated:` timestamp is the
parameter `now`.  The unguarded division at run.py:155 raises on an empty
outcome list; the run.py:149 count subscripts every outcome's status
first; each section's subscripts can raise; and the final
`"\n".join(report_lines)` (run.py:213) raises unless every collected line
is a string. -/
def generate_report (cfg : Config) (now : String) (bug_results : List Dict) :
    Except String String :=
  match countSolutionGenerated bug_results with
  | .error e => .error e
  | .ok solution_generated_count =>
    let failed_count := bug_results.length - solution_generated_count
    match successRateTenths solution_generated_count bug_results.length with
    | .error e => .error e
    | .ok rate =>
      match renderOutcomes 1 bug_results with
      | .error e => .error e
      | .ok sections =>
        pyJoinStrs "\n"
          (([charRun '=' 60, "BUG FIXER AGENT REPORT", charRun '=' 60,
             "Generated: " ++ now,
             "Model Used: " ++ cfg.model_name,
             "Total Bugs Processed: " ++ toString bug_results.length, "",
             "SUMMARY:",
             "- Solutions Successfully Generated: " ++ toString solution_generated_count,
             "- Failures (No Solution/Invalid Solution): " ++ toString failed_count,
             "- Success Rate (Solution Generation): " ++ fmtTenths rate ++ "%",
             ""].map Val.vstr) ++
           sections ++
           ((["TECHNICAL DETAILS:",
              "- Model: " ++ cfg.model_name,
              "- Temperature: " ++ cfg.temperature,
              "- Max Output Tokens: " ++ toString cfg.max_output_tokens,
              "- Max Retries: " ++ toString cfg.max_retries, "",
              "GENERAL RECOMMENDATIONS:"] ++
             (if 0 < failed_count then
               ["- Review the 'AI-GENERATED FAILURE ANALYSIS AND IMPROVED SOLUTION' for failed bugs.",
                "- Ensure the environment is correctly set up and dependencies are met.",
                "- Consult agent logs for further details on API errors.",
                "- Refine bug definitions or prompt hints if solutions are consistently incorrect."]
              else
               ["- All bug solutions successfully generated! Review them for accuracy.",
                "- Manually apply the generated code snippets to your codebase.",
                "- Thoroughly test the application after applying changes.",
                "- Consider a code review for quality assurance before deploying."])).map Val.vstr))

/-- Whether a stored value is an actual string. -/
def isVstr : Val → Bool
  | .vstr _ => true
  | _ => false

/-- Whether a stored value is a list whose elements are all strings, so
that `', '.join` over it succeeds. -/
def strList : Val → Bool
  | .vlist l => l.all isVstr
  | _ => false

/-- The key is present and holds an actual string. -/
def isStrAt (d : Dict) (k : String) : Bool :=
  match dget d k with
  | some (.vstr _) => true
  | _ => false

/-- The key is absent, or holds an actual string. -/
def isStrOrAbsent (d : Dict) (k : String) : Bool :=
  match dget d k with
  | some (.vstr _) => true
  | none => true
  | some _ => false

/-- An outcome payload the Report Assembler can render without raising:
the three subscripted keys are present with string values, the
files-affected list (when any) joins, and a present `ai_suggestions`
value is a string.  Every payload `process_bug` returns satisfies this
(proved below). -/
def reportReady (p : Dict) : Bool :=
  isStrAt p "bug_name" && isStrAt p "status" &&
  isStrAt p "generated_code_solution" &&
  strList ((dget (dgetDictD p "fix_summary") "files_affected").getD (.vlist [])) &&
  isStrOrAbsent p "ai_suggestions"

/-! ## run.py: the Run Controller -/

/-- Count of outcomes whose status is not `solution_generated` — the value
`self.results["bugs_failed"]` holds after the loop (run.py:248-251). -/
def failedCount (bug_results : List Dict) : Nat :=
  bug_results.countP (fun r => !statusIsSuccess r)

/-- run.py:238-244: the main loop.  Each defect is processed in catalog
order and its payload appended; an exception escaping `process_bug`
propagates (there is no `try` around the loop body) and aborts the run. -/
def runBugs (mr : Nat) (model_name : String) (bugs : List Bug)
    (codebase_content : String) (env : Nat → BugEnv) :
    List Bug → Nat → Except String (List Dict)
  | [], _ => .ok []
  | b :: rest, i =>
    match process_bug mr model_name bugs b.name (env i) codebase_content with
    | .error e => .error e
    | .ok p =>
      match runBugs mr model_name bugs codebase_content env rest (i + 1) with
      | .error e => .error e
      | .ok ps => .ok (p :: ps)

/-- run.py:215-285 `run`.  `setupOk` models `setup_environment()`
(run.py:223-225: `False` aborts with return value `False`), the loaded
snapshot text is `codebase_content` (run.py:228-231: empty text aborts with
`False`).  After the loop the report is generated (run.py:269) — an
exception from it propagates — and the method returns
`bugs_failed == 0` (run.py:285). -/
def run (cfg : Config) (setupOk : Bool) (codebase_content : String)
    (catalog : List Bug) (env : Nat → BugEnv) (now : String) :
    Except String Bool :=
  if setupOk = false then .ok false
  else if codebase_content == "" then .ok false
  else
    match runBugs cfg.max_retries cfg.model_name catalog codebase_content env
            catalog 0 with
    | .error e => .error e
    | .ok bug_results =>
      match generate_report cfg now bug_results with
      | .error e => .error e
      | .ok _report => .ok (failedCount bug_results == 0)

/-- run.py:287-297 `main`: exit code 0 on `run()` returning `True`, 1 on
`False`; an exception escaping `run()` is uncaught, and the interpreter
exits with status 1. -/
def mainExit (cfg : Config) (setupOk : Bool) (codebase_content : String)
    (catalog : List Bug) (env : Nat → BugEnv) (now : String) : Nat :=
  match run cfg setupOk codebase_content catalog env now with
  | .ok true => 0
  | .ok false => 1
  | .error _ => 1

/-! ## The planted-bug catalog (bug_definitions.py:3-41) -/

/-- `BugDefinitions.planted_bugs`: the five defect records. -/
def planted_bugs : List Bug :=
  [{ name := "State Management Bug",
     description := "Todo items don't update in the UI after editing. The `handleUpdate` function in `TodoList.tsx` makes an API call but never updates the local `todos` state with the returned data.",
     files := ["frontend/src/components/TodoList.tsx"],
     root_cause := "Missing state update after successful API call to reflect changes locally.",
     fix_summary := "Update the local `todos` state array with the response from the `updateTodo` API call to ensure UI consistency." },
   { name := "CSRF Token Bug",
     description := "POST, PUT, and DELETE requests are failing due to a missing `X-CSRFToken` header. The `apiCall` helper in `api.ts` needs to include the CSRF token for mutating requests.",
     files := ["frontend/src/services/api.ts"],
     root_cause := "Django's CSRF protection blocks mutating requests without the `X-CSRFToken` header, which was missing in `api.ts`.",
     fix_summary := "In `apiCall` in `api.ts`, add the `X-CSRFToken` header for 'POST', 'PUT', and 'DELETE' methods by retrieving the token from the cookie." },
   { name := "Permission Bug",
     description := "Users can see todos from other users. The `get_queryset` method in the `TodoViewSet` should filter todos by the currently authenticated user.",
     files := ["backend/todos/views.py"],
     root_cause := "The `get_queryset` method in `TodoViewSet` was not filtering todos by the authenticated user, leading to data exposure.",
     fix_summary := "Modify `get_queryset` in `TodoViewSet` to filter `Todo` objects by `self.request.user` to ensure users only see their own todos." },
   { name := "React useEffect Bug",
     description := "An infinite loop occurs in `TodoList.tsx` because the `useEffect` hook that calls `fetchTodos` is missing a dependency array, causing it to run on every component render.",
     files := ["frontend/src/components/TodoList.tsx"],
     root_cause := "The `useEffect` hook in `TodoList.tsx` lacked a dependency array, causing `fetchTodos` to be called on every render, leading to an infinite loop.",
     fix_summary := "Add an empty dependency array (`[]`) to the `useEffect` hook in `TodoList.tsx` to ensure `fetchTodos` runs only once on component mount." },
   { name := "API Integration Bug",
     description := "Field name mismatch between frontend and backend. The Django serializer sends `completed` and `created_at`, but the React interface expects `is_completed` and `created`.",
     files := ["backend/todos/serializers.py"],
     root_cause := "The Django `TodoSerializer` uses field names (`completed`, `created_at`) that do not align with the field names expected by the React frontend (`is_completed`, `created`), causing integration issues.",
     fix_summary := "In `backend/todos/serializers.py`, map the backend fields `completed` and `created_at` to `is_completed` and `created` respectively, using `serializers.BooleanField(source='completed')` and `serializers.DateTimeField(source='created_at')` in `TodoSerializer`." }]

/-! ## Spec-modelled components (prompts.py is not part of the sources)

The repository's `bug_fixer_agent/prompts.py` (class `Prompts`) is not
among the provided source files; only its callers (agent.py, run.py) and
its tests (tests/bug_fixer_agent/test_agent_core.py) are.  The Prompt
Builder and the Context Loader's relevant-file extraction are therefore
modelled from the specification. -/

/-- The fixed snapshot header line: one hundred asterisks
(`HEADER_LINE = "*" * 100`, per the test module's fallback constants). -/
def HEADER_LINE : String := charRun '*' 100

/-- The snapshot block separator (`FILE_SEPARATOR = "\n\n"`). -/
def FILE_SEPARATOR : String := "\n\n"

/-- A path's header triple: header line, `File: <path>` line, header line
(spec 4.1). -/
def headerTriple (path : String) : String :=
  HEADER_LINE ++ "\n" ++ "File: " ++ path ++ "\n" ++ HEADER_LINE

/-- Modelled from the spec: `Prompts._extract_relevant_files` is not under
the provided sources.  Spec 4.1: `extract(snapshot, paths)` returns, for
each requested path found in the snapshot, its header triple concatenated
in snapshot order; paths not present are silently skipped; file content is
not included (header-only extraction).  The snapshot is taken in its 3
structured form (an ordered list of path-content blocks); the triples are
joined by the block separator. -/
def extractRelevantFiles (blocks : List (String × String))
    (paths : List String) : List String :=
  match blocks with
  | [] => []
  | (p, _content) :: rest =>
    if paths.contains p then headerTriple p :: extractRelevantFiles rest paths
    else extractRelevantFiles rest paths

/-- The extraction result as one text (spec 4.1 `extract ... -> text`). -/
def extractRelevantFilesText (blocks : List (String × String))
    (paths : List String) : String :=
  joinSep FILE_SEPARATOR (extractRelevantFiles blocks paths)

/-- The opening-brace character, i.e. the placeholder delimiter
(written via its code point). -/
def obrace : Char := Char.ofNat 123

/-- A string free of placeholder delimiters. -/
abbrev bracesFree (s : String) : Prop := obrace ∉ s.data

/-- Concatenation of a list of string pieces in order. -/
def concatPieces : List String → String
  | [] => ""
  | x :: xs => x ++ concatPieces xs

/-- The pieces of the fix prompt, in order (see `build_fix_prompt`). -/
def fixPromptPieces (b : Bug) (hints excerpts : String) : List String :=
  ["Provide ONLY the corrected code snippet(s) to fix a specific bug in this Django/React application.\n",
   "Your primary goal is minimality and precision.\n\n",
   "BUG NAME: ", b.name, "\n",
   "DESCRIPTION: ", b.description, "\n",
   "ROOT CAUSE: ", b.root_cause, "\n",
   "FIX CONCEPT: ", b.fix_summary, "\n",
   "AFFECTED FILES: ", joinSep ", " b.files, "\n\n",
   "ANALYSIS HINTS (Specific guidance on what and what NOT to change):\n",
   hints, "\n\n",
   "CODE CONTEXT (original, buggy files for reference):\n",
   excerpts, "\n\n",
   "STRICT OUTPUT FORMAT (CRITICAL TO FOLLOW):\n",
   "- Output ONLY corrected code snippets.\n",
   "- For each affected file, start with: File: <file_path>\n",
   "- Immediately follow with a markdown code block.\n",
   "- Include only the minimal set of lines that are changed, added, or deleted,\n",
   "  with 1 to 3 lines of unchanged surrounding context.\n",
   "- DO NOT include diff markers.\n",
   "- DO NOT provide ANY explanations, conversational text, or content outside the code blocks."]

/-- Modelled from the spec: `Prompts.generate_enhanced_prompt` (the Prompt
Builder's `build_fix_prompt`) is not under the provided sources.  Spec 4.2:
a deterministic, fully-substituted instruction string containing the
defect's name, description, root cause, fix summary, the comma-joined
affected-file list, the defect-specific guidance text and the relevant
excerpts block, followed by the fixed output-grammar mandate; every
placeholder token is resolved before the string is returned. -/
def build_fix_prompt (b : Bug) (hints excerpts : String) : String :=
  concatPieces (fixPromptPieces b hints excerpts)

/-! ## Test-fixture data and API-outcome predicates used by the theorems -/

/-- The bug record used by the test fixtures
(test_agent_core.py `mock_bug_definitions`). -/
def testBug : Bug :=
  { name := "Test Bug 1",
    description := "This is a test bug description.",
    files := ["frontend/src/components/TestFile.tsx", "backend/models/AnotherFile.py"],
    root_cause := "Test root cause.",
    fix_summary := "Test fix concept." }

/-- A per-bug environment in which the Fix Generator's API always returns
empty text and the Failure Analyst's API always returns a missing text, so
both exhaust their five retries. -/
def allEmptyEnv : BugEnv :=
  { promptRes := .ok "PROMPT", staticA := .vdict [],
    fixApi := fun _ => .resp (some ""), faApi := fun _ => .resp none }

/-- Attempt `i`'s call returns a response with falsy (missing/empty) text. -/
def apiEmpty (api : Nat → ApiOutcome) (i : Nat) : Bool :=
  match api i with
  | .resp t => falsyText t
  | .exn _ => false

/-- Attempt `i` is one of the three retryable outcomes: a raised error, a
falsy response text, or a response failing format validation. -/
def attemptFails (api : Nat → ApiOutcome) (i : Nat) : Bool :=
  match api i with
  | .exn _ => true
  | .resp t => falsyText t || !(validate_code_snippet_format (pyStripStr (textOf t)))

/-- A per-bug environment whose first Fix Generator call returns a valid
snippet. -/
def happyEnv : BugEnv :=
  { promptRes := .ok "PROMPT", staticA := .vdict [],
    fixApi := fun _ => .resp (some "File: a.py\nx = 1"),
    faApi := fun _ => .resp none }

/-- The outcome list of the happy-path run on the one-bug catalog. -/
def happyResults : List Dict :=
  match runBugs defaultConfig.max_retries defaultConfig.model_name [testBug]
          "codebase" (fun _ => happyEnv) [testBug] 0 with
  | .ok rs => rs
  | .error _ => []

/-- The snapshot blocks of the test fixture (`mock_codebase_content`). -/
def testBlocks : List (String × String) :=
  [("frontend/src/components/TestFile.tsx", "import React from 'react';"),
   ("backend/models/AnotherFile.py", "from django.db import models"),
   ("irrelevant/file.txt", "Some irrelevant content.")]

/-- The requested paths of the test fixture. -/
def testPaths : List String :=
  ["frontend/src/components/TestFile.tsx", "backend/models/AnotherFile.py"]

/-! ## Helper lemmas -/

theorem strData_append (s t : String) : (s ++ t).data = s.data ++ t.data := by
  cases s; cases t; rfl

theorem splitLines_ne_nil (cs : List Char) : splitLines cs ≠ [] := by
  induction cs with
  | nil => simp [splitLines]
  | cons c cs ih =>
    simp only [splitLines]
    cases h : splitLines cs with
    | nil => exact absurd h ih
    | cons l ls => split <;> (try split) <;> simp

theorem mem_of_mem_splitLines {cs : List Char} {l : List Char} {c : Char}
    (hl : l ∈ splitLines cs) (hc : c ∈ l) : c ∈ cs := by
  induction cs generalizing l with
  | nil =>
    simp [splitLines] at hl
    subst hl; simp at hc
  | cons a cs ih =>
    obtain ⟨l0, ls, h⟩ : ∃ l0 ls, splitLines cs = l0 :: ls := by
      cases h' : splitLines cs with
      | nil => exact absurd h' (splitLines_ne_nil cs)
      | cons x xs => exact ⟨x, xs, rfl⟩
    simp only [splitLines, h] at hl
    have hl0 : l0 ∈ splitLines cs := h ▸ List.mem_cons_self _ _
    have hls : ∀ x ∈ ls, x ∈ splitLines cs := fun x hx => h ▸ List.mem_cons_of_mem _ hx
    by_cases ha : a = '\n'
    · rw [if_pos ha] at hl
      rcases List.mem_cons.mp hl with rfl | hl2
      · simp at hc
      · rcases List.mem_cons.mp hl2 with rfl | hl3
        · exact List.mem_cons_of_mem _ (ih hl0 hc)
        · exact List.mem_cons_of_mem _ (ih (hls _ hl3) hc)
    · rw [if_neg ha] at hl
      rcases List.mem_cons.mp hl with rfl | hl2
      · rcases List.mem_cons.mp hc with rfl | hc2
        · exact List.mem_cons_self _ _
        · exact List.mem_cons_of_mem _ (ih hl0 hc2)
      · exact List.mem_cons_of_mem _ (ih (hls _ hl2) hc)

theorem pyStrip_ne_nil_of_mem {cs : List Char} {c : Char} (h : c ∈ cs)
    (hw : c.isWhitespace = false) : pyStrip cs ≠ [] := by
  intro hnil
  unfold pyStrip at hnil
  rw [List.reverse_eq_nil_iff, List.dropWhile_eq_nil_iff] at hnil
  have h2 : ∀ x ∈ cs.dropWhile Char.isWhitespace, x.isWhitespace = true := by
    intro x hx
    exact hnil x (List.mem_reverse.mpr hx)
  have hsplit := List.takeWhile_append_dropWhile (p := Char.isWhitespace) (l := cs)
  rcases List.mem_append.mp (hsplit ▸ h) with h3 | h3
  · rw [List.mem_takeWhile_imp h3] at hw; cases hw
  · rw [h2 _ h3] at hw; cases hw

theorem hasFileLine_pyStrip_ne_nil {s : String} (h : hasFileLine s = true) :
    pyStrip s.data ≠ [] := by
  unfold hasFileLine at h
  rw [List.any_eq_true] at h
  obtain ⟨l, hl, hpre⟩ := h
  rw [List.isPrefixOf_iff_prefix] at hpre
  obtain ⟨t, ht⟩ := hpre
  have hF : 'F' ∈ l := by
    rw [← ht]
    exact List.mem_append_left _ (by decide)
  exact pyStrip_ne_nil_of_mem (mem_of_mem_splitLines hl hF) (by decide)

/-! ## C6: the format validator's truth table -/

/-- C6: for all input texts, `_validate_code_snippet_format` returns false
on empty or whitespace-only text, false on text with no line starting with
`File: `, true on text with such a line even without fence markers
(lenient), and true on text with such a line and at least two fence
markers. -/
theorem validate_code_snippet_format_truth_table (s : String) :
    (pyStrip s.data = [] → validate_code_snippet_format s = false) ∧
    (hasFileLine s = false → validate_code_snippet_format s = false) ∧
    (hasFileLine s = true → validate_code_snippet_format s = true) ∧
    (hasFileLine s = true → 2 ≤ countFences s.data →
      validate_code_snippet_format s = true) := by
  have key : hasFileLine s = true → validate_code_snippet_format s = true := by
    intro h
    unfold validate_code_snippet_format
    rw [if_neg (hasFileLine_pyStrip_ne_nil h), h]
    simp
  refine ⟨?_, ?_, key, fun h _ => key h⟩
  · intro h
    unfold validate_code_snippet_format
    rw [if_pos h]
  · intro h
    unfold validate_code_snippet_format
    rw [h]
    split <;> simp

/-- Witness for C6 at the concrete inputs of
`test_code_snippet_format_validation`: the empty string and conversational
text are rejected, a `File:` header without fences is accepted (lenient),
and a `File:` header with two fences is accepted. -/
theorem validate_code_snippet_format_truth_table_witness :
    validate_code_snippet_format "" = false ∧
    validate_code_snippet_format "Hello, here is your fix." = false ∧
    validate_code_snippet_format "File: frontend/src/components/TodoList.tsx\n  const x = 1;" = true ∧
    validate_code_snippet_format ("File: a.py\n" ++ String.mk [bq, bq, bq] ++ "\nx = 1\n" ++ String.mk [bq, bq, bq]) = true :=
  ⟨(validate_code_snippet_format_truth_table "").1 (by decide),
   (validate_code_snippet_format_truth_table "Hello, here is your fix.").2.1 (by decide),
   (validate_code_snippet_format_truth_table _).2.2.1 (by decide),
   (validate_code_snippet_format_truth_table _).2.2.2 (by decide) (by decide)⟩

/-! ## C3: the summary division is NOT guarded -/

/-- C1 is a code bug: when fix generation fails and the Failure Analyst
also exhausts its retries, `process_bug` does NOT complete normally.  The
analyst's exhausted-retries return value (agent.py:223) carries only an
`"analysis"` key and no `"success"` flag, so the subscript
`suggestion_response["success"]` at run.py:128 — outside the `try` block —
raises `KeyError`, and the placeholder branch at run.py:130-131 is
unreachable. -/
theorem process_bug_keyError_on_analyst_exhaustion :
    process_bug 5 "models/gemini-2.5-flash" [testBug] "Test Bug 1"
      allEmptyEnv "codebase" = Except.error "KeyError: 'success'" := rfl

/-- C2 is broken by the same code bug: with a one-defect catalog whose fix
generation and failure analysis both exhaust their retries, the Run
Controller's loop does not absorb the per-defect failure — the `KeyError`
escaping `process_bug` aborts `run` before the Reporting phase, and no
report is generated. -/
theorem run_aborts_before_reporting_on_analyst_exhaustion :
    run defaultConfig true "codebase" [testBug] (fun _ => allEmptyEnv)
      "2026-10-12 00:00:00" = Except.error "KeyError: 'success'" := rfl

/-! ## C4: the retry bound -/

theorem fixLoop_all_empty (mr : Nat) (mn bn : String) (an : Val)
    (api : Nat → ApiOutcome) (hapi : ∀ i, apiEmpty api i = true) :
    ∀ fuel attempt, attempt + fuel = mr → 0 < fuel →
      fixLoop mr mn bn an api fuel attempt =
        ("", [("error", .vstr "No response from API after max retries")], fuel) := by
  intro fuel
  induction fuel with
  | zero => intro _ _ h; omega
  | succ n ih =>
    intro attempt hsum _
    cases h : api attempt with
    | exn m =>
      have h2 := hapi attempt
      unfold apiEmpty at h2
      rw [h] at h2
      simp at h2
    | resp t =>
      have hf : falsyText t = true := by
        have h2 := hapi attempt
        unfold apiEmpty at h2
        rw [h] at h2
        simpa using h2
      cases n with
      | zero =>
        have hb : (attempt == mr - 1) = true := by
          rw [beq_iff_eq]; omega
        unfold fixLoop
        rw [h]
        simp [hf, hb]
      | succ m =>
        have hb : (attempt == mr - 1) = false := by
          rw [beq_eq_false_iff_ne]; omega
        unfold fixLoop
        rw [h]
        simp only [hf, hb, if_true, Bool.false_eq_true, if_false]
        rw [ih (attempt + 1) (by omega) (by omega)]

theorem dget_analyze_bug_error_of_found (bugs : List Bug) (bn : String)
    {b : Bug} (staticA : Val) (ctx : String)
    (hb : get_bug_by_name bugs bn = some b) :
    dget (analyze_bug bugs bn staticA ctx) "error" = none := by
  unfold analyze_bug
  rw [hb]
  rfl

/-- C4: for any defect present in the catalog whose prompt builds cleanly
and whose external generation call returns empty text on every attempt,
`generate_fix` performs exactly `max_retries` API calls — never fewer or
more — and returns failure: an empty code string with an error entry in
the metadata.  The configured default for `max_retries` is 5. -/
theorem generate_fix_retry_bound (mr : Nat) (mn : String) (bugs : List Bug)
    (bug_name : String) (b : Bug) (staticA : Val) (ctx prompt : String)
    (api : Nat → ApiOutcome)
    (hb : get_bug_by_name bugs bug_name = some b)
    (hp1 : hasSub "Error:".data prompt.data = false)
    (hp2 : (pyStripStr prompt == "") = false)
    (hapi : ∀ i, apiEmpty api i = true) :
    (generate_fix mr mn bugs bug_name staticA ctx (.ok prompt) api).1 = "" ∧
    (dget (generate_fix mr mn bugs bug_name staticA ctx (.ok prompt) api).2.1
      "error").isSome = true ∧
    (generate_fix mr mn bugs bug_name staticA ctx (.ok prompt) api).2.2 = mr ∧
    defaultConfig.max_retries = 5 := by
  have hd := dget_analyze_bug_error_of_found bugs bug_name staticA ctx hb
  unfold generate_fix
  simp only [hd, hp1, hp2, Bool.or_self, Bool.false_eq_true, if_false]
  cases mr with
  | zero =>
    refine ⟨rfl, rfl, rfl, rfl⟩
  | succ n =>
    rw [fixLoop_all_empty (n + 1) mn bug_name _ api hapi (n + 1) 0 (by omega)
      (by omega)]
    exact ⟨rfl, rfl, rfl, rfl⟩

/-- Witness for C4: the test-fixture bug, a clean prompt, and an API that
returns empty text on every attempt: exactly 5 calls are made and failure
is returned. -/
theorem generate_fix_retry_bound_witness :
    (generate_fix 5 "test_model" [testBug] "Test Bug 1" (.vdict []) "ctx"
      (.ok "PROMPT") (fun _ => .resp (some ""))).1 = "" ∧
    (dget (generate_fix 5 "test_model" [testBug] "Test Bug 1" (.vdict []) "ctx"
      (.ok "PROMPT") (fun _ => .resp (some ""))).2.1 "error").isSome = true ∧
    (generate_fix 5 "test_model" [testBug] "Test Bug 1" (.vdict []) "ctx"
      (.ok "PROMPT") (fun _ => .resp (some ""))).2.2 = 5 ∧
    defaultConfig.max_retries = 5 :=
  generate_fix_retry_bound 5 "test_model" [testBug] "Test Bug 1" testBug
    (.vdict []) "ctx" "PROMPT" (fun _ => .resp (some "")) rfl rfl rfl
    (fun _ => rfl)

/-! ## C5: early success short-circuits the loop -/

theorem fixLoop_early_success (mr : Nat) (mn bn : String) (an : Val)
    (api : Nat → ApiOutcome) (t : String) (j : Nat)
    (hj : j < mr)
    (ht : api j = .resp (some t))
    (hne : (t == "") = false)
    (hv : validate_code_snippet_format (pyStripStr t) = true) :
    ∀ fuel attempt, attempt + fuel = mr → attempt ≤ j →
      (∀ i, attempt ≤ i → i < j → attemptFails api i = true) →
      fixLoop mr mn bn an api fuel attempt =
        (pyStripStr t,
         [("bug_name", .vstr bn), ("analysis", an),
          ("attempts", .vnat (j + 1)), ("model_used", .vstr mn)],
         j - attempt + 1) := by
  intro fuel
  induction fuel with
  | zero => intro attempt h1 h2 _; omega
  | succ n ih =>
    intro attempt hsum hle hfail
    by_cases hja : attempt = j
    · subst hja
      unfold fixLoop
      rw [ht]
      have hfalsy : falsyText (some t) = false := by
        unfold falsyText; exact hne
      simp only [hfalsy, Bool.false_eq_true, if_false]
      have : pyStripStr (textOf (some t)) = pyStripStr t := rfl
      rw [this, hv]
      simp
    · have hlt : attempt < j := by omega
      have hmr1 : attempt < mr - 1 := by omega
      have hbne : (attempt == mr - 1) = false := by
        rw [beq_eq_false_iff_ne]; omega
      have hstep := hfail attempt (le_refl _) hlt
      unfold attemptFails at hstep
      have hrec := ih (attempt + 1) (by omega) (by omega)
        (fun i h1 h2 => hfail i (by omega) h2)
      cases h : api attempt with
      | exn m =>
        unfold fixLoop
        rw [h]
        simp only [hmr1, if_true, hrec]
        have : j - (attempt + 1) + 1 + 1 = j - attempt + 1 := by omega
        rw [this]
      | resp u =>
        rw [h] at hstep
        simp only [Bool.or_eq_true, Bool.not_eq_eq_eq_not, Bool.not_true] at hstep
        unfold fixLoop
        rw [h]
        rcases hstep with hstep | hstep
        · simp only [hstep, if_true, hbne, Bool.false_eq_true, if_false, hrec]
          have : j - (attempt + 1) + 1 + 1 = j - attempt + 1 := by omega
          rw [this]
        · cases hfu : falsyText u with
          | true =>
            simp only [hfu, if_true, hbne, Bool.false_eq_true, if_false, hrec]
            have : j - (attempt + 1) + 1 + 1 = j - attempt + 1 := by omega
            rw [this]
          | false =>
            simp only [hfu, Bool.false_eq_true, if_false, hstep, if_true, hbne,
              hrec]
            have : j - (attempt + 1) + 1 + 1 = j - attempt + 1 := by omega
            rw [this]

/-- C5: if attempt `k < max_retries` (`k` counted from 1, all earlier
attempts having failed softly or hard) yields a non-empty response that
passes format validation, `generate_fix` returns success immediately with
that (stripped) response text and the metadata
`{bug_name, analysis, attempts = k, model_used}`, and performs exactly `k`
API calls — attempt `k + 1` never occurs. -/
theorem generate_fix_early_success (mr : Nat) (mn : String) (bugs : List Bug)
    (bug_name : String) (b : Bug) (staticA : Val) (ctx prompt t : String)
    (api : Nat → ApiOutcome) (k : Nat)
    (hb : get_bug_by_name bugs bug_name = some b)
    (hp1 : hasSub "Error:".data prompt.data = false)
    (hp2 : (pyStripStr prompt == "") = false)
    (hk0 : 0 < k) (hk : k < mr)
    (hfail : ∀ i, i < k - 1 → attemptFails api i = true)
    (ht : api (k - 1) = .resp (some t))
    (hne : (t == "") = false)
    (hv : validate_code_snippet_format (pyStripStr t) = true) :
    generate_fix mr mn bugs bug_name staticA ctx (.ok prompt) api =
      (pyStripStr t,
       [("bug_name", .vstr bug_name),
        ("analysis", .vdict (analyze_bug bugs bug_name staticA ctx)),
        ("attempts", .vnat k), ("model_used", .vstr mn)],
       k) := by
  have hd := dget_analyze_bug_error_of_found bugs bug_name staticA ctx hb
  unfold generate_fix
  simp only [hd, hp1, hp2, Bool.or_self, Bool.false_eq_true, if_false]
  rw [fixLoop_early_success mr mn bug_name _ api t (k - 1) (by omega) ht hne hv
    mr 0 (by omega) (by omega) (fun i _ h2 => hfail i h2)]
  have h1 : k - 1 + 1 = k := by omega
  have h2 : k - 1 - 0 + 1 = k := by omega
  rw [h1, h2]

/-- Witness for C5: attempt 1 returns empty text, attempt 2 (with
`max_retries = 5`) returns a valid snippet; `generate_fix` succeeds with
`attempts = 2` after exactly 2 calls. -/
theorem generate_fix_early_success_witness :
    generate_fix 5 "test_model" [testBug] "Test Bug 1" (.vdict []) "ctx"
      (.ok "PROMPT")
      (fun i => if i = 0 then .resp (some "") else .resp (some "File: a.py\nx = 1")) =
      (pyStripStr "File: a.py\nx = 1",
       [("bug_name", .vstr "Test Bug 1"),
        ("analysis", .vdict (analyze_bug [testBug] "Test Bug 1" (.vdict []) "ctx")),
        ("attempts", .vnat 2), ("model_used", .vstr "test_model")],
       2) :=
  generate_fix_early_success 5 "test_model" [testBug] "Test Bug 1" testBug
    (.vdict []) "ctx" "PROMPT" "File: a.py\nx = 1"
    (fun i => if i = 0 then .resp (some "") else .resp (some "File: a.py\nx = 1"))
    2 rfl rfl rfl (by omega) (by omega)
    (fun i hi => by
      have : i = 0 := by omega
      subst this
      rfl)
    rfl rfl (by decide)

/-! ## C10: the two shapes of a generate_fix result -/

theorem validate_ne_empty {s : String} (hv : validate_code_snippet_format s = true) :
    s ≠ "" := by
  intro h
  subst h
  exact absurd hv (by decide)

theorem dget_dset_self (d : Dict) (k : String) (v : Val) :
    dget (dset d k v) k = some v := by
  unfold dget dset
  split
  case isTrue h =>
    induction d with
    | nil => simp at h
    | cons p d ih =>
      by_cases hp : (p.1 == k) = true
      · have hk : (k == k) = true := by simp
        simp [List.find?, hp, hk]
      · have hp' : (p.1 == k) = false := by
          cases hq : p.1 == k
          · rfl
          · exact absurd hq hp
        simp only [List.map_cons, hp', Bool.false_eq_true, if_false] at h ⊢
        simp only [List.find?, hp'] at h ⊢
        exact ih h
  case isFalse h =>
    induction d with
    | nil =>
      have hk : (k == k) = true := by simp
      simp [List.find?, hk]
    | cons p d ih =>
      have hp : (p.1 == k) = false := by
        cases hq : p.1 == k
        · rfl
        · exact absurd (by simp [List.find?, hq]) h
      simp only [List.cons_append, List.find?, hp] at h ⊢
      exact ih (by simpa [List.find?, hp] using h)

theorem dget_dset_other (d : Dict) (k k' : String) (v : Val)
    (hne : (k == k') = false) : dget (dset d k v) k' = dget d k' := by
  unfold dget dset
  split
  case isTrue h =>
    clear h
    induction d with
    | nil => rfl
    | cons p d ih =>
      simp only [List.map_cons, List.find?]
      by_cases hp : (p.1 == k) = true
      · have hpk : p.1 = k := beq_iff_eq.mp hp
        have h2 : (p.1 == k') = false := by rw [hpk]; exact hne
        simp only [hp, if_true, hne, h2]
        exact ih
      · have hp' : (p.1 == k) = false := by
          cases hq : p.1 == k
          · rfl
          · exact absurd hq hp
        simp only [hp', Bool.false_eq_true, if_false]
        cases hq : p.1 == k' with
        | true => simp only [hq]
        | false => simp only [hq]; exact ih
  case isFalse h =>
    clear h
    induction d with
    | nil => simp only [List.nil_append, List.find?, hne]
    | cons p d ih =>
      simp only [List.cons_append, List.find?]
      cases hq : p.1 == k' with
      | true => simp only [hq]
      | false => simp only [hq]; exact ih

theorem fixLoop_shape (mr : Nat) (mn bn : String) (an : Val)
    (api : Nat → ApiOutcome) :
    ∀ fuel attempt,
      ((fixLoop mr mn bn an api fuel attempt).1 = "" ∧
       ((fixLoop mr mn bn an api fuel attempt).2.1).map Prod.fst = ["error"]) ∨
      ((fixLoop mr mn bn an api fuel attempt).1 ≠ "" ∧
       ((fixLoop mr mn bn an api fuel attempt).2.1).map Prod.fst =
         ["bug_name", "analysis", "attempts", "model_used"]) := by
  intro fuel
  induction fuel with
  | zero => intro attempt; left; exact ⟨rfl, rfl⟩
  | succ n ih =>
    intro attempt
    cases h : api attempt with
    | exn m =>
      unfold fixLoop
      rw [h]
      by_cases hc : attempt < mr - 1
      · simp only [hc, if_true]
        exact ih (attempt + 1)
      · simp only [hc, if_false]
        first | trivial | (left; simp)
    | resp t =>
      unfold fixLoop
      rw [h]
      cases hf : falsyText t with
      | true =>
        cases hb : (attempt == mr - 1) with
        | true =>
          simp only [hf, if_true, hb]
          first | trivial | (left; simp)
        | false =>
          simp only [hf, if_true, hb, Bool.false_eq_true, if_false]
          exact ih (attempt + 1)
      | false =>
        cases hv : validate_code_snippet_format (pyStripStr (textOf t)) with
        | false =>
          cases hb : (attempt == mr - 1) with
          | true =>
            simp only [hf, Bool.false_eq_true, if_false, hv, if_true, hb]
            first | trivial | (left; simp)
          | false =>
            simp only [hf, Bool.false_eq_true, if_false, hv, if_true, hb]
            exact ih (attempt + 1)
        | true =>
          simp only [hf, Bool.false_eq_true, if_false, hv, Bool.true_eq_false]
          first | trivial | (right; exact ⟨validate_ne_empty hv, by simp⟩)

/-- C10: every `generate_fix` result has exactly one of two shapes — an
empty code string with a metadata dict whose only key is `error` (every
failure path: unknown defect, prompt-build failure, invalid prompt, retry
exhaustion), or a non-empty code string with a metadata dict whose keys
are exactly `bug_name`, `analysis`, `attempts`, `model_used` (hence no
`error` key) — and `process_bug` classifies the outcome as
`solution_generated` exactly when the returned code string is non-empty. -/
theorem generate_fix_result_shape :
    (∀ (mr : Nat) (mn : String) (bugs : List Bug) (bug_name : String)
       (staticA : Val) (ctx : String) (promptRes : Except String String)
       (api : Nat → ApiOutcome),
      ((generate_fix mr mn bugs bug_name staticA ctx promptRes api).1 = "" ∧
       ((generate_fix mr mn bugs bug_name staticA ctx promptRes api).2.1).map
         Prod.fst = ["error"]) ∨
      ((generate_fix mr mn bugs bug_name staticA ctx promptRes api).1 ≠ "" ∧
       ((generate_fix mr mn bugs bug_name staticA ctx promptRes api).2.1).map
         Prod.fst = ["bug_name", "analysis", "attempts", "model_used"])) ∧
    (∀ (bug_name code : String) (meta : Dict),
      statusIsSuccess (classifyFix bug_name code meta) = true ↔ code ≠ "") := by
  constructor
  · intro mr mn bugs bug_name staticA ctx promptRes api
    cases hd : dget (analyze_bug bugs bug_name staticA ctx) "error" with
    | some e =>
      unfold generate_fix
      simp only [hd]
      first | trivial | (left; simp)
    | none =>
      cases promptRes with
      | error e =>
        unfold generate_fix
        simp only [hd]
        first | trivial | (left; simp)
      | ok prompt =>
        cases hc : hasSub "Error:".data prompt.data || pyStripStr prompt == "" with
        | true =>
          unfold generate_fix
          simp only [hd, hc, if_true]
          first | trivial | (left; simp)
        | false =>
          unfold generate_fix
          simp only [hd, hc, Bool.false_eq_true, if_false]
          exact fixLoop_shape mr mn bug_name _ api mr 0
  · intro bug_name code meta
    unfold classifyFix
    cases hc : code == "" with
    | true =>
      have hcode : code = "" := beq_iff_eq.mp hc
      simp only [if_true]
      unfold statusIsSuccess
      rw [dget_dset_other _ "error" "status" _ (by decide), dget_dset_self]
      constructor
      · intro h; simp at h
      · intro h; exact absurd hcode h
    | false =>
      have hcode : code ≠ "" := by
        intro h; rw [h] at hc; simp at hc
      simp only [Bool.false_eq_true, if_false]
      unfold statusIsSuccess
      rw [dget_dset_other _ "fix_summary" "status" _ (by decide), dget_dset_self]
      constructor
      · intro _; exact hcode
      · intro _; rfl

/-! ## Report readiness: process_bug outcomes render without raising -/

theorem isStrAt_spec {d : Dict} {k : String} (h : isStrAt d k = true) :
    ∃ s, dget d k = some (.vstr s) := by
  unfold isStrAt at h
  cases hq : dget d k with
  | none => rw [hq] at h; simp at h
  | some v =>
    rw [hq] at h
    cases v with
    | vstr s => exact ⟨s, rfl⟩
    | vbool b => simp at h
    | vnat n => simp at h
    | vlist l => simp at h
    | vdict d2 => simp at h

theorem isStrOrAbsent_spec {d : Dict} {k : String}
    (h : isStrOrAbsent d k = true) :
    dget d k = none ∨ ∃ s, dget d k = some (.vstr s) := by
  unfold isStrOrAbsent at h
  cases hq : dget d k with
  | none => exact Or.inl rfl
  | some v =>
    rw [hq] at h
    cases v with
    | vstr s => exact Or.inr ⟨s, rfl⟩
    | vbool b => simp at h
    | vnat n => simp at h
    | vlist l => simp at h
    | vdict d2 => simp at h

theorem reportReady_status {p : Dict} (h : reportReady p = true) :
    isStrAt p "status" = true := by
  unfold reportReady at h
  simp only [Bool.and_eq_true] at h
  exact h.1.1.1.2

theorem allStrs_of_all_isVstr : ∀ {l : List Val}, l.all isVstr = true →
    ∃ ss, allStrs l = some ss := by
  intro l
  induction l with
  | nil => intro _; exact ⟨[], rfl⟩
  | cons x xs ih =>
    intro h
    simp only [List.all_cons, Bool.and_eq_true] at h
    obtain ⟨hx, hxs⟩ := h
    obtain ⟨ss, hss⟩ := ih hxs
    cases x with
    | vstr s =>
      refine ⟨s :: ss, ?_⟩
      show (allStrs xs).map (s :: ·) = some (s :: ss)
      rw [hss]
      rfl
    | vbool b => simp [isVstr] at hx
    | vnat n => simp [isVstr] at hx
    | vlist l2 => simp [isVstr] at hx
    | vdict d2 => simp [isVstr] at hx

theorem all_isVstr_map (ss : List String) :
    (ss.map Val.vstr).all isVstr = true := by
  induction ss with
  | nil => rfl
  | cons s ss ih => simp only [List.map_cons, List.all_cons, ih]; rfl

theorem strList_map_vstr (ss : List String) :
    strList (.vlist (ss.map Val.vstr)) = true := by
  show (ss.map Val.vstr).all isVstr = true
  exact all_isVstr_map ss

theorem pyJoinStrs_ok_of_all (sep : String) {l : List Val}
    (h : l.all isVstr = true) : ∃ s, pyJoinStrs sep l = .ok s := by
  obtain ⟨ss, hss⟩ := allStrs_of_all_isVstr h
  exact ⟨_, by unfold pyJoinStrs; rw [hss]⟩

theorem pyJoinVal_ok_of_strList (sep : String) {v : Val}
    (h : strList v = true) : ∃ s, pyJoinVal sep v = .ok s := by
  cases v with
  | vlist l =>
    obtain ⟨ss, hss⟩ := allStrs_of_all_isVstr (by simpa [strList] using h)
    refine ⟨joinSep sep ss, ?_⟩
    show pyJoinStrs sep l = _
    unfold pyJoinStrs
    rw [hss]
  | vstr s => simp [strList] at h
  | vbool b => simp [strList] at h
  | vnat n => simp [strList] at h
  | vdict d => simp [strList] at h

theorem countSolutionGenerated_ok : ∀ {rs : List Dict},
    (∀ p ∈ rs, reportReady p = true) →
    ∃ n, countSolutionGenerated rs = .ok n := by
  intro rs
  induction rs with
  | nil => intro _; exact ⟨0, rfl⟩
  | cons r rest ih =>
    intro h
    obtain ⟨s, hs⟩ := isStrAt_spec (reportReady_status (h r (List.mem_cons_self _ _)))
    obtain ⟨n, hn⟩ := ih (fun p hp => h p (List.mem_cons_of_mem _ hp))
    exact ⟨(if statusIsSuccess r then 1 else 0) + n, by
      unfold countSolutionGenerated
      simp only [hs, hn]⟩

theorem renderOutcome_ready (idx : Nat) (p : Dict)
    (h : reportReady p = true) :
    ∃ ls, renderOutcome idx p = .ok ls ∧ ls.all isVstr = true := by
  unfold reportReady at h
  simp only [Bool.and_eq_true] at h
  obtain ⟨⟨⟨⟨h1, h2⟩, h3⟩, h4⟩, h5⟩ := h
  obtain ⟨bn, hbn⟩ := isStrAt_spec h1
  obtain ⟨st, hst⟩ := isStrAt_spec h2
  obtain ⟨gc, hgc⟩ := isStrAt_spec h3
  have hd1 : dsub p "bug_name" = .ok (.vstr bn) := by unfold dsub; rw [hbn]
  have hd2 : dsub p "status" = .ok (.vstr st) := by unfold dsub; rw [hst]
  have hd3 : dsub p "generated_code_solution" = .ok (.vstr gc) := by
    unfold dsub; rw [hgc]
  unfold renderOutcome
  simp only [hd1, hd2, hd3]
  cases hS : statusIsSuccess p with
  | true =>
    simp only [hS, if_true]
    obtain ⟨fstr, hf⟩ := pyJoinVal_ok_of_strList ", " h4
    simp only [hf]
    refine ⟨_, rfl, ?_⟩
    simp [isVstr]
  | false =>
    simp only [hS, Bool.false_eq_true, if_false, hgc]
    rcases isStrOrAbsent_spec h5 with hnone | ⟨as, hsome⟩
    · simp only [hnone]
      refine ⟨_, rfl, ?_⟩
      cases truthyVal (Val.vstr gc) <;> simp [isVstr]
    · simp only [hsome]
      refine ⟨_, rfl, ?_⟩
      cases truthyVal (Val.vstr gc) <;> cases truthyVal (Val.vstr as) <;>
        simp [isVstr]

theorem renderOutcomes_ready : ∀ (rs : List Dict) (idx : Nat),
    (∀ p ∈ rs, reportReady p = true) →
    ∃ ls, renderOutcomes idx rs = .ok ls ∧ ls.all isVstr = true := by
  intro rs
  induction rs with
  | nil => intro idx _; exact ⟨[], rfl, rfl⟩
  | cons r rest ih =>
    intro idx h
    obtain ⟨ls1, hr1, ha1⟩ := renderOutcome_ready idx r (h r (List.mem_cons_self _ _))
    obtain ⟨ls2, hr2, ha2⟩ := ih (idx + 1) (fun p hp => h p (List.mem_cons_of_mem _ hp))
    refine ⟨ls1 ++ ls2, ?_, ?_⟩
    · unfold renderOutcomes
      simp only [hr1, hr2]
    · simp [List.all_append, ha1, ha2]

theorem generate_report_ready (cfg : Config) (now : String)
    (bug_results : List Dict) (hne : bug_results ≠ [])
    (hrdy : ∀ p ∈ bug_results, reportReady p = true) :
    ∃ report, generate_report cfg now bug_results = Except.ok report := by
  obtain ⟨n, hn⟩ := countSolutionGenerated_ok hrdy
  have hl : bug_results.length ≠ 0 := by simpa [List.length_eq_zero] using hne
  obtain ⟨sections, hsec, hall⟩ := renderOutcomes_ready bug_results 1 hrdy
  have hrate : successRateTenths n bug_results.length =
      .ok (n * 1000 / bug_results.length) := by
    unfold successRateTenths
    rw [if_neg hl]
  unfold generate_report
  simp only [hn, hrate, hsec]
  exact pyJoinStrs_ok_of_all "\n"
    (by simp [List.all_append, List.all_cons, isVstr, hall, all_isVstr_map])

/-! ## Every payload process_bug returns is report-ready -/

theorem faLoop_shape (api : Nat → ApiOutcome) :
    ∀ fuel attempt,
      faLoop api fuel attempt =
        [("analysis", .vstr "Failed to generate intelligent suggestions due to API error.")] ∨
      ∃ s, faLoop api fuel attempt =
        [("analysis", .vstr s), ("success", .vbool true)] := by
  intro fuel
  induction fuel with
  | zero => intro attempt; left; rfl
  | succ n ih =>
    intro attempt
    cases h : api attempt with
    | exn m =>
      unfold faLoop
      rw [h]
      exact ih (attempt + 1)
    | resp t =>
      unfold faLoop
      rw [h]
      cases hf : falsyText t with
      | true =>
        simp only [hf, if_true]
        exact ih (attempt + 1)
      | false =>
        simp only [hf, Bool.false_eq_true, if_false]
        right
        exact ⟨_, rfl⟩

theorem fixLoop_shape2 (mr : Nat) (mn bn : String) (an : Val)
    (api : Nat → ApiOutcome) :
    ∀ fuel attempt,
      (fixLoop mr mn bn an api fuel attempt).1 = "" ∨
      ∃ k, (fixLoop mr mn bn an api fuel attempt).2.1 =
        [("bug_name", .vstr bn), ("analysis", an), ("attempts", .vnat k),
         ("model_used", .vstr mn)] := by
  intro fuel
  induction fuel with
  | zero => intro attempt; left; rfl
  | succ n ih =>
    intro attempt
    cases h : api attempt with
    | exn m =>
      unfold fixLoop
      rw [h]
      by_cases hc : attempt < mr - 1
      · simp only [hc, if_true]
        exact ih (attempt + 1)
      · simp only [hc, if_false]
        first | trivial | (left; first | trivial | rfl)
    | resp t =>
      unfold fixLoop
      rw [h]
      cases hf : falsyText t with
      | true =>
        cases hb : (attempt == mr - 1) with
        | true =>
          simp only [hf, if_true, hb]
          first | trivial | (left; first | trivial | rfl)
        | false =>
          simp only [hf, if_true, hb, Bool.false_eq_true, if_false]
          exact ih (attempt + 1)
      | false =>
        cases hv : validate_code_snippet_format (pyStripStr (textOf t)) with
        | false =>
          cases hb : (attempt == mr - 1) with
          | true =>
            simp only [hf, Bool.false_eq_true, if_false, hv, if_true, hb]
            first | trivial | (left; first | trivial | rfl)
          | false =>
            simp only [hf, Bool.false_eq_true, if_false, hv, if_true, hb]
            exact ih (attempt + 1)
        | true =>
          simp only [hf, Bool.false_eq_true, if_false, hv, Bool.true_eq_false]
          first | trivial | (right; exact ⟨attempt + 1, by first | trivial | rfl⟩)

theorem generate_fix_shape2 (mr : Nat) (mn : String) (bugs : List Bug)
    (bug_name : String) (staticA : Val) (ctx : String)
    (promptRes : Except String String) (api : Nat → ApiOutcome) :
    (generate_fix mr mn bugs bug_name staticA ctx promptRes api).1 = "" ∨
    ∃ b k, get_bug_by_name bugs bug_name = some b ∧
      (generate_fix mr mn bugs bug_name staticA ctx promptRes api).2.1 =
        [("bug_name", .vstr bug_name),
         ("analysis", .vdict [("bug_info", bugToVal b),
            ("static_analysis", staticA), ("context", .vstr ctx)]),
         ("attempts", .vnat k), ("model_used", .vstr mn)] := by
  cases hb : get_bug_by_name bugs bug_name with
  | none =>
    left
    have he : dget (analyze_bug bugs bug_name staticA ctx) "error" =
        some (.vstr ("Bug '" ++ bug_name ++ "' not found in definitions")) := by
      unfold analyze_bug
      rw [hb]
      rfl
    unfold generate_fix
    simp only [he]
  | some b =>
    have hd := dget_analyze_bug_error_of_found bugs bug_name staticA ctx hb
    have han : analyze_bug bugs bug_name staticA ctx =
        [("bug_info", bugToVal b), ("static_analysis", staticA),
         ("context", .vstr ctx)] := by
      unfold analyze_bug
      rw [hb]
    unfold generate_fix
    simp only [hd]
    cases promptRes with
    | error e => left; rfl
    | ok prompt =>
      cases hc : hasSub "Error:".data prompt.data || pyStripStr prompt == "" with
      | true =>
        simp only [hc, if_true]
        first | trivial | (left; first | trivial | rfl)
      | false =>
        simp only [hc, Bool.false_eq_true, if_false, han]
        rcases fixLoop_shape2 mr mn bug_name
          (.vdict [("bug_info", bugToVal b), ("static_analysis", staticA),
            ("context", .vstr ctx)]) api mr 0 with h0 | ⟨k, hk⟩
        · left; exact h0
        · right; exact ⟨b, k, rfl, hk⟩

theorem classifyFix_empty (bn : String) (meta : Dict) (code : String)
    (hc : (code == "") = true) :
    classifyFix bn code meta =
      [("bug_name", .vstr bn),
       ("status", .vstr "failed_to_generate_solution"),
       ("error", (dget meta "error").getD (.vstr "No code solution generated.")),
       ("generated_code_solution", .vstr code),
       ("ai_suggestions", .vstr "")] := by
  unfold classifyFix
  simp only [hc, if_true]
  rfl

theorem classifyFix_nonempty (bn : String) (meta : Dict) (code : String)
    (hc : (code == "") = false) :
    classifyFix bn code meta =
      [("bug_name", .vstr bn),
       ("status", .vstr "solution_generated"),
       ("error", .vstr ""),
       ("generated_code_solution", .vstr code),
       ("ai_suggestions", .vstr ""),
       ("fix_summary", .vdict (get_fix_summary bn code meta))] := by
  unfold classifyFix
  simp only [hc, Bool.false_eq_true, if_false]
  rfl

theorem reportReady_failureForm (bn : String) (errv : Val) (code s : String) :
    reportReady
      [("bug_name", .vstr bn),
       ("status", .vstr "failed_to_generate_solution"),
       ("error", errv),
       ("generated_code_solution", .vstr code),
       ("ai_suggestions", .vstr s)] = true := rfl

theorem reportReady_successForm (bn code : String) (fs : Dict)
    (hf : strList ((dget fs "files_affected").getD (.vlist [])) = true) :
    reportReady
      [("bug_name", .vstr bn),
       ("status", .vstr "solution_generated"),
       ("error", .vstr ""),
       ("generated_code_solution", .vstr code),
       ("ai_suggestions", .vstr ""),
       ("fix_summary", .vdict fs)] = true := by
  unfold reportReady
  rw [show dgetDictD
      [("bug_name", Val.vstr bn),
       ("status", Val.vstr "solution_generated"),
       ("error", Val.vstr ""),
       ("generated_code_solution", Val.vstr code),
       ("ai_suggestions", Val.vstr ""),
       ("fix_summary", Val.vdict fs)] "fix_summary" = fs from rfl, hf]
  rfl

theorem strList_files_of_success_meta (bugName code mn ctx : String)
    (b : Bug) (staticA : Val) (k : Nat) :
    strList ((dget (get_fix_summary bugName code
      [("bug_name", .vstr bugName),
       ("analysis", .vdict [("bug_info", bugToVal b),
          ("static_analysis", staticA), ("context", .vstr ctx)]),
       ("attempts", .vnat k), ("model_used", .vstr mn)])
      "files_affected").getD (.vlist [])) = true := by
  have hfa : dget (get_fix_summary bugName code
      [("bug_name", .vstr bugName),
       ("analysis", .vdict [("bug_info", bugToVal b),
          ("static_analysis", staticA), ("context", .vstr ctx)]),
       ("attempts", .vnat k), ("model_used", .vstr mn)]) "files_affected" =
      some (.vlist (if (b.files.map Val.vstr).isEmpty
        then (detectFiles code).map Val.vstr
        else b.files.map Val.vstr)) := rfl
  rw [hfa]
  cases hemp : (b.files.map Val.vstr).isEmpty with
  | true =>
    simp only [hemp, if_true, Option.getD_some]
    exact strList_map_vstr _
  | false =>
    simp only [hemp, Bool.false_eq_true, if_false, Option.getD_some]
    exact strList_map_vstr _

theorem process_bug_ready (mr : Nat) (mn : String) (bugs : List Bug)
    (bugName : String) (e : BugEnv) (content : String) (p : Dict)
    (h : process_bug mr mn bugs bugName e content = .ok p) :
    reportReady p = true := by
  unfold process_bug at h
  cases hc : ((generate_fix mr mn bugs bugName e.staticA content e.promptRes
      e.fixApi).1 == "") with
  | false =>
    rcases generate_fix_shape2 mr mn bugs bugName e.staticA content
        e.promptRes e.fixApi with h0 | ⟨b, k, hb, hk⟩
    · rw [h0] at hc
      simp at hc
    · have hform := classifyFix_nonempty bugName
        (generate_fix mr mn bugs bugName e.staticA content e.promptRes
          e.fixApi).2.1
        (generate_fix mr mn bugs bugName e.staticA content e.promptRes
          e.fixApi).1 hc
      have hS : statusIsSuccess (classifyFix bugName
          (generate_fix mr mn bugs bugName e.staticA content e.promptRes
            e.fixApi).1
          (generate_fix mr mn bugs bugName e.staticA content e.promptRes
            e.fixApi).2.1) = true := by
        rw [hform]
        rfl
      simp only [hS, if_true, Except.ok.injEq] at h
      subst h
      rw [hform, hk]
      exact reportReady_successForm _ _ _
        (strList_files_of_success_meta bugName _ mn content b e.staticA k)
  | true =>
    have hform := classifyFix_empty bugName
      (generate_fix mr mn bugs bugName e.staticA content e.promptRes
        e.fixApi).2.1
      (generate_fix mr mn bugs bugName e.staticA content e.promptRes
        e.fixApi).1 hc
    have hS : statusIsSuccess (classifyFix bugName
        (generate_fix mr mn bugs bugName e.staticA content e.promptRes
          e.fixApi).1
        (generate_fix mr mn bugs bugName e.staticA content e.promptRes
          e.fixApi).2.1) = false := by
      rw [hform]
      rfl
    simp only [hS, Bool.false_eq_true, if_false] at h
    unfold generate_failure_analysis_and_suggestions at h
    rcases faLoop_shape e.faApi mr 0 with hfa | ⟨s, hfa⟩
    · rw [hfa] at h
      simp only [show dget
          [("analysis", Val.vstr "Failed to generate intelligent suggestions due to API error.")]
          "success" = none from rfl] at h
      exact Except.noConfusion h
    · rw [hfa] at h
      simp only [show dget [("analysis", Val.vstr s), ("success", Val.vbool true)]
          "success" = some (Val.vbool true) from rfl,
        show truthyVal (Val.vbool true) = true from rfl, if_true,
        show dget [("analysis", Val.vstr s), ("success", Val.vbool true)]
          "analysis" = some (Val.vstr s) from rfl,
        Except.ok.injEq] at h
      subst h
      rw [hform]
      rw [show dset
          [("bug_name", Val.vstr bugName),
           ("status", Val.vstr "failed_to_generate_solution"),
           ("error", (dget (generate_fix mr mn bugs bugName e.staticA content
              e.promptRes e.fixApi).2.1 "error").getD
              (Val.vstr "No code solution generated.")),
           ("generated_code_solution", Val.vstr (generate_fix mr mn bugs
              bugName e.staticA content e.promptRes e.fixApi).1),
           ("ai_suggestions", Val.vstr "")] "ai_suggestions" (Val.vstr s) =
          [("bug_name", Val.vstr bugName),
           ("status", Val.vstr "failed_to_generate_solution"),
           ("error", (dget (generate_fix mr mn bugs bugName e.staticA content
              e.promptRes e.fixApi).2.1 "error").getD
              (Val.vstr "No code solution generated.")),
           ("generated_code_solution", Val.vstr (generate_fix mr mn bugs
              bugName e.staticA content e.promptRes e.fixApi).1),
           ("ai_suggestions", Val.vstr s)] from rfl]
      exact reportReady_failureForm _ _ _ _

theorem runBugs_all_ready (mr : Nat) (mn : String) (bugs : List Bug)
    (content : String) (env : Nat → BugEnv) :
    ∀ (l : List Bug) (i : Nat) (results : List Dict),
      runBugs mr mn bugs content env l i = .ok results →
      ∀ p ∈ results, reportReady p = true := by
  intro l
  induction l with
  | nil =>
    intro i results h p hp
    simp only [runBugs, Except.ok.injEq] at h
    subst h
    simp at hp
  | cons b rest ih =>
    intro i results h p hp
    unfold runBugs at h
    cases hpb : process_bug mr mn bugs b.name (env i) content with
    | error e =>
      rw [hpb] at h
      exact Except.noConfusion h
    | ok q =>
      cases hrest : runBugs mr mn bugs content env rest (i + 1) with
      | error e =>
        simp only [hpb, hrest] at h
        exact Except.noConfusion h
      | ok qs =>
        simp only [hpb, hrest, Except.ok.injEq] at h
        subst h
        rcases List.mem_cons.mp hp with rfl | hp2
        · exact process_bug_ready mr mn bugs b.name (env i) content p hpb
        · exact ih (i + 1) qs hrest p hp2

/-! ## C3: the amended division-safety statement -/

/-- C7: whenever the run completes — setup succeeded, the snapshot loaded
non-empty, every defect produced an outcome, and the report rendered — its
overall result is exactly `failed == 0`; the process exits 0 exactly when
`run` returned success; and an aborted setup yields overall failure (so
exit code 1), as does an exception escaping the loop. -/
theorem run_exit_code_spec (cfg : Config) (setupOk : Bool)
    (codebase_content : String) (catalog : List Bug) (env : Nat → BugEnv)
    (now : String) :
    (∀ bug_results,
      setupOk = true → (codebase_content == "") = false →
      runBugs cfg.max_retries cfg.model_name catalog codebase_content env
        catalog 0 = .ok bug_results →
      bug_results ≠ [] →
      run cfg setupOk codebase_content catalog env now =
        .ok (failedCount bug_results == 0)) ∧
    (mainExit cfg setupOk codebase_content catalog env now = 0 ↔
      run cfg setupOk codebase_content catalog env now = .ok true) ∧
    (setupOk = false →
      run cfg setupOk codebase_content catalog env now = .ok false) ∧
    (∀ e, run cfg setupOk codebase_content catalog env now = .error e →
      mainExit cfg setupOk codebase_content catalog env now = 1) := by
  refine ⟨?_, ?_, ?_, ?_⟩
  · intro bug_results h1 h2 h3 h4
    obtain ⟨rep, hrep⟩ :=
      generate_report_ready cfg now bug_results h4
        (runBugs_all_ready cfg.max_retries cfg.model_name catalog
          codebase_content env catalog 0 bug_results h3)
    unfold run
    rw [h1]
    simp only [Bool.true_eq_false, if_false, h2, h3, hrep,
      Bool.false_eq_true]
  · unfold mainExit
    cases hr : run cfg setupOk codebase_content catalog env now with
    | error e => simp
    | ok b =>
      cases b with
      | true => simp
      | false => simp
  · intro h
    unfold run
    rw [h]
    simp
  · intro e he
    unfold mainExit
    rw [he]

/-- Witness for C7: on the happy-path one-bug run the loop completes, the
run returns `failed == 0`, and the exit code is 0 exactly in that case. -/
theorem run_exit_code_spec_witness :
    run defaultConfig true "codebase" [testBug] (fun _ => happyEnv)
      "2026-10-12 00:00:00" = .ok (failedCount happyResults == 0) ∧
    (mainExit defaultConfig true "codebase" [testBug] (fun _ => happyEnv)
      "2026-10-12 00:00:00" = 0 ↔
     run defaultConfig true "codebase" [testBug] (fun _ => happyEnv)
      "2026-10-12 00:00:00" = .ok true) :=
  ⟨(run_exit_code_spec defaultConfig true "codebase" [testBug]
      (fun _ => happyEnv) "2026-10-12 00:00:00").1 happyResults rfl rfl rfl
      (List.ne_nil_of_length_pos (by rw [show happyResults.length = 1 from rfl]; omega)),
   (run_exit_code_spec defaultConfig true "codebase" [testBug]
      (fun _ => happyEnv) "2026-10-12 00:00:00").2.1⟩


/-! ## C8: full substitution in the built fix prompt -/

theorem infixAppendL {xs ys : List Char} (zs : List Char) (h : xs <:+: ys) :
    xs <:+: zs ++ ys := by
  obtain ⟨l, r, hh⟩ := h
  exact ⟨zs ++ l, r, by rw [← hh]; simp [List.append_assoc]⟩

theorem mem_data_joinSep {c : Char} (sep : String) (xs : List String)
    (h : c ∈ (joinSep sep xs).data) :
    c ∈ sep.data ∨ ∃ x ∈ xs, c ∈ x.data := by
  induction xs with
  | nil => simp [joinSep] at h
  | cons x xs ih =>
    cases xs with
    | nil =>
      right
      exact ⟨x, List.mem_cons_self _ _, by simpa [joinSep] using h⟩
    | cons y ys =>
      rw [show joinSep sep (x :: y :: ys) = x ++ sep ++ joinSep sep (y :: ys)
        from rfl, strData_append, strData_append] at h
      rcases List.mem_append.mp h with h1 | h1
      · rcases List.mem_append.mp h1 with h2 | h2
        · exact Or.inr ⟨x, List.mem_cons_self _ _, h2⟩
        · exact Or.inl h2
      · rcases ih h1 with h2 | ⟨z, hz, hcz⟩
        · exact Or.inl h2
        · exact Or.inr ⟨z, List.mem_cons_of_mem _ hz, hcz⟩

theorem infix_concatPieces_of_mem {x : String} {xs : List String}
    (hx : x ∈ xs) : x.data <:+: (concatPieces xs).data := by
  induction xs with
  | nil => simp at hx
  | cons y ys ih =>
    rcases List.mem_cons.mp hx with rfl | hx2
    · exact ⟨[], (concatPieces ys).data, by rw [show concatPieces (x :: ys) = x ++ concatPieces ys from rfl, strData_append]; simp⟩
    · rw [show concatPieces (y :: ys) = y ++ concatPieces ys from rfl,
        strData_append]
      exact infixAppendL y.data (ih hx2)

theorem bracesFree_append {s t : String} (hs : bracesFree s)
    (ht : bracesFree t) : bracesFree (s ++ t) := by
  intro h
  rw [strData_append] at h
  rcases List.mem_append.mp h with h | h
  · exact hs h
  · exact ht h

theorem bracesFree_joinSep {sep : String} (hsep : bracesFree sep)
    {xs : List String} (hxs : ∀ x ∈ xs, bracesFree x) :
    bracesFree (joinSep sep xs) := by
  intro h
  rcases mem_data_joinSep sep xs h with h | ⟨x, hx, hcx⟩
  · exact hsep h
  · exact hxs x hx hcx

theorem bracesFree_concatPieces {xs : List String}
    (hxs : ∀ x ∈ xs, bracesFree x) : bracesFree (concatPieces xs) := by
  induction xs with
  | nil => decide
  | cons y ys ih =>
    rw [show concatPieces (y :: ys) = y ++ concatPieces ys from rfl]
    exact bracesFree_append (hxs y (List.mem_cons_self _ _))
      (ih fun x hx => hxs x (List.mem_cons_of_mem _ hx))

/-- C8: the built fix prompt contains every field's literal value
substituted in — the defect's name, description, root cause, fix summary
and the comma-joined affected-file list (as well as the hints and
excerpts blocks) occur verbatim in the returned string — and, provided no
input value itself carries a placeholder delimiter, the returned string
carries none: no unresolved placeholder token remains. -/
theorem build_fix_prompt_substitutes_all_fields (b : Bug)
    (hints excerpts : String) :
    b.name.data <:+: (build_fix_prompt b hints excerpts).data ∧
    b.description.data <:+: (build_fix_prompt b hints excerpts).data ∧
    b.root_cause.data <:+: (build_fix_prompt b hints excerpts).data ∧
    b.fix_summary.data <:+: (build_fix_prompt b hints excerpts).data ∧
    (joinSep ", " b.files).data <:+: (build_fix_prompt b hints excerpts).data ∧
    hints.data <:+: (build_fix_prompt b hints excerpts).data ∧
    excerpts.data <:+: (build_fix_prompt b hints excerpts).data ∧
    (bracesFree b.name → bracesFree b.description → bracesFree b.root_cause →
     bracesFree b.fix_summary → (∀ f ∈ b.files, bracesFree f) →
     bracesFree hints → bracesFree excerpts →
     bracesFree (build_fix_prompt b hints excerpts)) := by
  unfold build_fix_prompt
  refine ⟨infix_concatPieces_of_mem (by simp [fixPromptPieces]),
          infix_concatPieces_of_mem (by simp [fixPromptPieces]),
          infix_concatPieces_of_mem (by simp [fixPromptPieces]),
          infix_concatPieces_of_mem (by simp [fixPromptPieces]),
          infix_concatPieces_of_mem (by simp [fixPromptPieces]),
          infix_concatPieces_of_mem (by simp [fixPromptPieces]),
          infix_concatPieces_of_mem (by simp [fixPromptPieces]), ?_⟩
  intro h1 h2 h3 h4 h5 h6 h7
  apply bracesFree_concatPieces
  intro x hx
  fin_cases hx
  all_goals first
    | exact h1
    | exact h2
    | exact h3
    | exact h4
    | exact h6
    | exact h7
    | exact bracesFree_joinSep (by decide) h5
    | decide

/-- Witness for C8 at the test-fixture defect record: its name is
substituted into the prompt and the prompt is placeholder-free. -/
theorem build_fix_prompt_substitutes_all_fields_witness :
    testBug.name.data <:+: (build_fix_prompt testBug "No hints" "No context").data ∧
    bracesFree (build_fix_prompt testBug "No hints" "No context") :=
  ⟨(build_fix_prompt_substitutes_all_fields testBug "No hints" "No context").1,
   (build_fix_prompt_substitutes_all_fields testBug "No hints"
     "No context").2.2.2.2.2.2.2 (by decide) (by decide) (by decide)
     (by decide) (by decide) (by decide) (by decide)⟩

/-! ## C9: the Context Loader's relevant-file extraction -/

theorem mem_of_contains {p : String} {paths : List String}
    (h : paths.contains p = true) : p ∈ paths := by
  induction paths with
  | nil => simp [List.contains, List.elem] at h
  | cons a as ih =>
    by_cases hpa : (p == a) = true
    · exact (beq_iff_eq.mp hpa) ▸ List.mem_cons_self _ _
    · have hpa' : (p == a) = false := by
        cases hq : p == a
        · rfl
        · exact absurd hq hpa
      simp only [List.contains, List.elem, hpa'] at h
      exact List.mem_cons_of_mem _ (ih h)

theorem contains_append_cons_ne (paths1 paths2 : List String) (p q : String)
    (h : (p == q) = false) :
    (paths1 ++ q :: paths2).contains p = (paths1 ++ paths2).contains p := by
  induction paths1 with
  | nil => simp only [List.nil_append, List.contains, List.elem, h]
  | cons a as ih =>
    simp only [List.cons_append, List.contains, List.elem] at ih ⊢
    cases hq : p == a with
    | true => rfl
    | false => exact ih

theorem extractRelevantFiles_eq (blocks : List (String × String))
    (paths : List String) :
    extractRelevantFiles blocks paths =
      (blocks.filter (fun blk => paths.contains blk.1)).map
        (fun blk => headerTriple blk.1) := by
  induction blocks with
  | nil => rfl
  | cons blk rest ih =>
    obtain ⟨p, c⟩ := blk
    unfold extractRelevantFiles
    cases hc : paths.contains p with
    | true => simp only [List.filter_cons, hc, if_true, List.map_cons, ih]
    | false =>
      simp only [List.filter_cons, hc, Bool.false_eq_true, if_false, ih]

/-- C9: the relevant-file extraction returns exactly the header triple of
each requested path present in the snapshot, concatenated in snapshot
order (the filter of the snapshot's blocks); every character of the
result comes from the header lines, the `File: ` markers, the separators
or a requested path itself — file content between headers is never
included and non-requested files contribute nothing; and a requested path
absent from the snapshot is silently skipped (removing it does not change
the result). -/
theorem extract_relevant_files_spec :
    (∀ (blocks : List (String × String)) (paths : List String),
      extractRelevantFiles blocks paths =
        (blocks.filter (fun blk => paths.contains blk.1)).map
          (fun blk => headerTriple blk.1)) ∧
    (∀ (blocks : List (String × String)) (paths : List String) (ch : Char),
      ch ∈ (extractRelevantFilesText blocks paths).data →
      ch = '*' ∨ ch ∈ "File: \n".data ∨
      ∃ blk ∈ blocks, blk.1 ∈ paths ∧ ch ∈ blk.1.data) ∧
    (∀ (blocks : List (String × String)) (q : String)
       (paths1 paths2 : List String),
      q ∉ blocks.map Prod.fst →
      extractRelevantFiles blocks (paths1 ++ q :: paths2) =
        extractRelevantFiles blocks (paths1 ++ paths2)) := by
  refine ⟨extractRelevantFiles_eq, ?_, ?_⟩
  · intro blocks paths ch hch
    unfold extractRelevantFilesText at hch
    rcases mem_data_joinSep _ _ hch with h | ⟨x, hx, hcx⟩
    · right; left
      rw [show FILE_SEPARATOR.data = ['\n', '\n'] from rfl] at h
      rcases List.mem_cons.mp h with rfl | h2
      · decide
      · rcases List.mem_cons.mp h2 with rfl | h3
        · decide
        · simp at h3
    · rw [extractRelevantFiles_eq] at hx
      rcases List.mem_map.mp hx with ⟨blk, hblk, rfl⟩
      obtain ⟨hmem, hcont⟩ := List.mem_filter.mp hblk
      unfold headerTriple at hcx
      rw [strData_append, strData_append, strData_append, strData_append,
        strData_append] at hcx
      have hH : HEADER_LINE.data = List.replicate 100 '*' := rfl
      have hNl : ∀ c, c ∈ ("\n" : String).data → c ∈ ("File: \n" : String).data := by
        intro c hc
        rcases List.mem_cons.mp hc with rfl | h0
        · decide
        · simp at h0
      rcases List.mem_append.mp hcx with h1 | h1
      · rcases List.mem_append.mp h1 with h2 | h2
        · rcases List.mem_append.mp h2 with h3 | h3
          · rcases List.mem_append.mp h3 with h4 | h4
            · rcases List.mem_append.mp h4 with h5 | h5
              · left; exact List.eq_of_mem_replicate (hH ▸ h5)
              · right; left; exact hNl ch h5
            · right; left
              rw [show ("File: \n" : String).data =
                ("File: " : String).data ++ ['\n'] from rfl]
              exact List.mem_append_left _ h4
          · right; right
            exact ⟨blk, hmem, mem_of_contains hcont, h3⟩
        · right; left; exact hNl ch h2
      · left; exact List.eq_of_mem_replicate (hH ▸ h1)
  · intro blocks q paths1 paths2
    induction blocks with
    | nil => intro _; rfl
    | cons blk rest ih =>
      intro hq
      obtain ⟨p, c⟩ := blk
      have hq1 : ¬q = p := by
        intro h
        exact hq (by rw [List.map_cons]; exact h ▸ List.mem_cons_self _ _)
      have hq2 : q ∉ rest.map Prod.fst := by
        intro h
        exact hq (by rw [List.map_cons]; exact List.mem_cons_of_mem _ h)
      have hpq : (p == q) = false := by
        rw [beq_eq_false_iff_ne]
        exact fun h => hq1 h.symm
      unfold extractRelevantFiles
      rw [contains_append_cons_ne paths1 paths2 p q hpq, ih hq2]

/-- Witness for C9 at the test fixture: the extraction equals the filtered
header triples, the character `F` of the result comes only from headers or
requested paths, and an absent requested path is silently skipped. -/
theorem extract_relevant_files_spec_witness :
    extractRelevantFiles testBlocks testPaths =
      (testBlocks.filter (fun blk => testPaths.contains blk.1)).map
        (fun blk => headerTriple blk.1) ∧
    ('F' = '*' ∨ 'F' ∈ "File: \n".data ∨
      ∃ blk ∈ testBlocks, blk.1 ∈ testPaths ∧ 'F' ∈ blk.1.data) ∧
    extractRelevantFiles testBlocks ([] ++ "missing/path.py" :: testPaths) =
      extractRelevantFiles testBlocks ([] ++ testPaths) :=
  ⟨extract_relevant_files_spec.1 testBlocks testPaths,
   extract_relevant_files_spec.2.1 testBlocks testPaths 'F' (by decide),
   extract_relevant_files_spec.2.2 testBlocks "missing/path.py" [] testPaths
     (by decide)⟩
